import Mathlib

/-!
Shallow embedding of the core of `trmnl-ha-dash`:
the Progress Engine (`src/app/ha/history.py`, class `ProgressCalculator`),
its data model (`src/app/ha/models.py`), and the Rendering Engine
(`src/app/dashboard/renderer.py`, class `DashboardRenderer`).

Modelling conventions:
* Python floats are embedded as `ℚ` (exact rational arithmetic); all the
  verified properties are order/algebra facts that do not hinge on IEEE
  rounding.
* A Python `datetime` is embedded as a whole number of seconds relative to
  `ProgressCalculator.PERIOD_ANCHOR` (2020-01-05 00:00:00, a midnight);
  sub-second precision is dropped, which no verified property depends on.
* `int(x)` (truncation toward zero) is `pyTrunc`; `//` and `%` on integers
  with a positive divisor coincide with `Int.ediv` / `Int.emod`, which is
  what `/` and `%` on `ℤ` mean in Lean.
* PIL drawing calls are embedded as lists of `DrawCmd` values; text
  formatting (`strftime`, f-strings) is abstracted to plain strings since no
  claim inspects formatted text.
* Fallible Python operations (attribute lookup on a missing field, division
  by zero) return `Except PyError`.
-/

namespace TrmnlDash

/-- Python runtime exceptions that the embedded code can raise. -/
inductive PyError where
  | attributeError
  | zeroDivisionError
  deriving DecidableEq

/-- A Python `datetime`, as whole seconds relative to the period anchor
(2020-01-05 00:00:00, which is a local midnight). -/
structure PyDatetime where
  secondsSinceAnchor : ℤ
  deriving DecidableEq

/-- Python `int(q)` on a float: truncation toward zero.  On `ℚ` this is
`q.num.tdiv q.den` (`Int.tdiv` truncates toward zero and `q.den > 0`). -/
def pyTrunc (q : ℚ) : ℤ :=
  q.num.tdiv q.den

/-- Python seconds-into-the-day of a `datetime`: what `now.hour * 3600 +
now.minute * 60 + now.second` reads (the anchor is a midnight). -/
def PyDatetime.seconds_into_day (d : PyDatetime) : ℤ :=
  d.secondsSinceAnchor % 86400

/-- Data model, `src/app/ha/models.py`.  `GoalConfig` is the configuration
parsed from an HA label.  Its only fields are the four below: in particular
there is no `hours_offset` field.  (`weekly_target` is annotated `int` in the
source but `GoalDiscovery._parse_label_config` stores a Python float into it,
so it is embedded as `ℚ`.) -/
structure GoalConfig where
  label_id : String
  weekly_target : ℚ
  emoji : Option String := none
  sound : Option String := none
  deriving DecidableEq

/-- Data model, `src/app/ha/models.py`: one tracked habit with its mutable
progress fields. -/
structure Goal where
  entity_id : String
  friendly_name : String
  label_id : String
  config : GoalConfig
  current_count : ℤ := 0
  target_by_now : ℚ := 0
  status : String := "unknown"
  days_left : ℤ := 0
  deriving DecidableEq

/-- Python attribute access `goal.config.hours_offset` as performed at
`src/app/ha/history.py` line 80.  The `GoalConfig` dataclass declares only
`label_id`, `weekly_target`, `emoji`, `sound`, and no code in the repository
ever assigns an `hours_offset` attribute, so this lookup raises
`AttributeError` on every instance. -/
def GoalConfig.getattr_hours_offset (_config : GoalConfig) : Except PyError ℚ :=
  .error .attributeError

namespace ProgressCalculator

/-- Constant `ProgressCalculator.PERIOD_DAYS = 14` (2-week periods). -/
def PERIOD_DAYS : ℤ := 14

/-- Python `(dt - PERIOD_ANCHOR).days`: `timedelta.days` floors the span to
whole days, and `Int.ediv` by the positive constant 86400 is exactly that
floor. -/
def days_since_anchor (dt : PyDatetime) : ℤ :=
  dt.secondsSinceAnchor / 86400

/-- Embeds `ProgressCalculator._get_current_period` (history.py lines 102-127), with
the ambient `datetime.now()` made an explicit argument.  The result is the
pair (period_start, period_end) in seconds since the anchor.  The source's
`.replace(hour=0, ...)` is a no-op because the anchor is itself a midnight
and only whole days are added. -/
def get_current_period (now : PyDatetime) : ℤ × ℤ :=
  let periods_elapsed := (days_since_anchor now) / PERIOD_DAYS
  let period_start := periods_elapsed * PERIOD_DAYS * 86400
  (period_start, period_start + PERIOD_DAYS * 86400 - 1)

/-- Embeds `ProgressCalculator._get_day_of_period` (history.py lines 129-140):
`(dt - PERIOD_ANCHOR).days % 14`.  Python `%` with a positive modulus is
`Int.emod`. -/
def get_day_of_period (dt : PyDatetime) : ℤ :=
  (days_since_anchor dt) % PERIOD_DAYS

/-- history.py line 167: fraction of the current day that has passed,
`(now.hour * 3600 + now.minute * 60 + now.second) / 86400`.  With the anchor
at midnight this is the seconds-into-day of `now`, over 86400. -/
def day_fraction (now : PyDatetime) : ℚ :=
  ((now.seconds_into_day : ℤ) : ℚ) / 86400

/-- history.py lines 171-173: subtract the grace offset (in days) from the
elapsed days, clamped below at 0. -/
def effective_days_elapsed (days_elapsed : ℚ) (hours_offset : ℚ) : ℚ :=
  max 0 (days_elapsed - hours_offset / 24)

/-- history.py line 175: `period_target * (days_elapsed / PERIOD_DAYS)`. -/
def expected_by_now (period_target : ℚ) (days_elapsed : ℚ) : ℚ :=
  period_target * (days_elapsed / (PERIOD_DAYS : ℚ))

/-- Embeds `ProgressCalculator._calculate_target_by_now` (history.py lines 142-175),
with the ambient `datetime.now()` of line 165 made an explicit argument. -/
def calculate_target_by_now (period_target : ℚ) (day_of_period : ℤ)
    (hours_offset : ℚ) (now : PyDatetime) : ℚ :=
  expected_by_now period_target
    (effective_days_elapsed ((day_of_period : ℚ) + day_fraction now) hours_offset)

/-- Embeds `ProgressCalculator._calculate_status` (history.py lines 177-195). -/
def calculate_status (current : ℤ) (target_by_now : ℚ) : String :=
  if (current : ℚ) < target_by_now then "behind" else "on_track"

/-- history.py line 87: `days_left = (PERIOD_DAYS - 1) - day_of_period`. -/
def days_left (now : PyDatetime) : ℤ :=
  (PERIOD_DAYS - 1) - get_day_of_period now

/-- The per-goal body of `ProgressCalculator.calculate_progress`
(history.py lines 56-98), with the state lookup already resolved to
`current_count` and the ambient `datetime.now()` explicit.  Following the
source order: day-of-period (line 77), period target (line 78), then the
attribute access `goal.config.hours_offset` (line 80) inside the call to
`_calculate_target_by_now` - which raises, so nothing past it runs. -/
def calculate_progress_goal (goal : Goal) (current_count : ℤ)
    (now : PyDatetime) : Except PyError Goal := do
  let day_of_period := get_day_of_period now
  let period_target := goal.config.weekly_target * 2
  let hours_offset ← goal.config.getattr_hours_offset
  let target_by_now := calculate_target_by_now period_target day_of_period hours_offset now
  let status := calculate_status current_count target_by_now
  let days_left := (PERIOD_DAYS - 1) - day_of_period
  .ok { goal with
        current_count := current_count
        target_by_now := target_by_now
        status := status
        days_left := days_left }

/-- Embeds `ProgressCalculator.calculate_progress` (history.py lines 24-100) over a
list of goals paired with their already-fetched counter values.  An empty
list returns immediately (line 40); otherwise the loop body runs per goal
and any raised exception propagates. -/
def calculate_progress (now : PyDatetime) :
    List (Goal × ℤ) → Except PyError (List Goal)
  | [] => .ok []
  | (goal, count) :: rest => do
      let goal' ← calculate_progress_goal goal count now
      let rest' ← calculate_progress now rest
      .ok (goal' :: rest')

end ProgressCalculator

/-- Colors used by the renderer (`"black"`, `"white"`, `"#d0d0d0"`). -/
inductive Color where
  | black
  | white
  | lightGray
  deriving DecidableEq

/-- A PIL drawing call, recorded instead of performed. -/
inductive DrawCmd where
  | fillRect (x1 y1 x2 y2 : ℤ) (color : Color)
  | outlineRect (x1 y1 x2 y2 : ℤ) (color : Color) (strokeWidth : ℤ)
  | line (x1 y1 x2 y2 : ℤ) (color : Color) (strokeWidth : ℤ)
  | text (x y : ℤ) (content : String) (color : Color)
  deriving DecidableEq

/-- Leftmost x coordinate a command touches (stroke width ignored). -/
def DrawCmd.xmin : DrawCmd → ℤ
  | .fillRect x1 _ _ _ _ => x1
  | .outlineRect x1 _ _ _ _ _ => x1
  | .line x1 _ x2 _ _ _ => min x1 x2
  | .text x _ _ _ => x

/-- Rightmost x coordinate a command touches (stroke width ignored). -/
def DrawCmd.xmax : DrawCmd → ℤ
  | .fillRect _ _ x2 _ _ => x2
  | .outlineRect _ _ x2 _ _ _ => x2
  | .line x1 _ x2 _ _ _ => max x1 x2
  | .text x _ _ _ => x

namespace DashboardRenderer

/-- Layout constants, renderer.py lines 19-22. -/
def X_MARGIN : ℤ := 20

def HEADER_HEIGHT : ℤ := 62

def BOTTOM_MARGIN : ℤ := 20

def BAR_HEIGHT : ℤ := 20

/-- Python float division, which raises `ZeroDivisionError` on a zero
denominator (used at renderer.py line 205). -/
def pyDiv (a b : ℚ) : Except PyError ℚ :=
  if b = 0 then .error .zeroDivisionError else .ok (a / b)

/-- renderer.py line 278: `fill_fraction = min(current / target, 1.0)`. -/
def fill_fraction (current : ℤ) (target : ℚ) : ℚ :=
  min ((current : ℚ) / target) 1

/-- renderer.py line 279: `filled_width = int(fill_fraction * width)`. -/
def filled_width (current : ℤ) (target : ℚ) (width : ℤ) : ℤ :=
  pyTrunc (fill_fraction current target * (width : ℚ))

/-- The divider x positions `seg_x = x + int(i * segment_width)` for
`i in range(1, int_target)`, where `segment_width = width / int_target`
(renderer.py lines 291-293 and 307-310; both loops compute the same
positions). -/
def segment_xs (x width : ℤ) (int_target : ℕ) : List ℤ :=
  (List.range' 1 (int_target - 1)).map
    (fun (i : ℕ) => x + pyTrunc ((i : ℚ) * ((width : ℚ) / (int_target : ℚ))))

/-- Embeds `DashboardRenderer._draw_progress_bar` (renderer.py lines 258-312) as the
list of drawing calls it performs, in order.  `target <= 0` returns with no
drawing (line 274-275); `is_integer_target` is Python `target == int(target)`
(line 277). -/
def draw_progress_bar (x y width height : ℤ) (current : ℤ) (target : ℚ) :
    List DrawCmd :=
  if target ≤ 0 then []
  else
    let fw := filled_width current target width
    let int_target := (pyTrunc target).toNat
    let filledCmds :=
      if 0 < fw then
        DrawCmd.fillRect x y (x + fw) (y + height) .black ::
        (if target = ((pyTrunc target : ℤ) : ℚ) then
          (segment_xs x width int_target).filterMap (fun sx =>
            if sx < x + fw then
              some (DrawCmd.line sx y sx (y + height) .white 2)
            else none)
        else [])
      else []
    let outlineCmd := DrawCmd.outlineRect x y (x + width) (y + height) .black 1
    let unfilledDividers :=
      if target = ((pyTrunc target : ℤ) : ℚ) then
        (segment_xs x width int_target).filterMap (fun sx =>
          if x + fw ≤ sx then
            some (DrawCmd.line sx y sx (y + height) .black 1)
          else none)
      else []
    filledCmds ++ [outlineCmd] ++ unfilledDividers

/-- A command is a segment divider exactly when it is a `line`; within
`draw_progress_bar` the only `line` calls are the dividers of the two
loops. -/
def isDividerLine : DrawCmd → Bool
  | .line _ _ _ _ _ _ => true
  | _ => false

/-- Number of segment dividers among a list of drawing calls. -/
def countDividers (cmds : List DrawCmd) : ℕ :=
  (cmds.filter isDividerLine).length

/-- Embeds `DashboardRenderer._draw_goal_row` (renderer.py lines 224-256): returns
the bar's y position and the drawing calls (name text, then the bar). -/
def draw_goal_row (goal : Goal) (y width : ℤ) : ℤ × List DrawCmd :=
  let name_text :=
    match goal.config.emoji with
    | some e => e ++ " " ++ goal.friendly_name
    | none => goal.friendly_name
  let bar_y := y + 22
  let bar_width := width - X_MARGIN * 2
  let period_target := goal.config.weekly_target * 2
  (bar_y,
    DrawCmd.text X_MARGIN y name_text .black ::
    draw_progress_bar X_MARGIN bar_y bar_width BAR_HEIGHT
      goal.current_count period_target)

/-- Boundaries of the goals area returned by `_draw_goals`. -/
structure GoalsArea where
  top : ℤ
  bottom : ℤ
  left : ℤ
  right : ℤ
  deriving DecidableEq

/-- Embeds `DashboardRenderer._draw_goals` (renderer.py lines 186-222).  An empty
goal list returns `None` before the division `available_height / num_goals`
(line 205) is reached; `time_fraction` is accepted but unused, as in the
source. -/
def draw_goals (goals : List Goal) (width height : ℤ) (_time_fraction : ℚ) :
    Except PyError (Option GoalsArea × List DrawCmd) :=
  if goals.isEmpty then .ok (none, [])
  else do
    let available_height : ℚ := ((height - HEADER_HEIGHT - BOTTOM_MARGIN : ℤ) : ℚ)
    let num_goals := goals.length
    let goal_spacing ← pyDiv available_height (num_goals : ℚ)
    let rows := goals.enum.map (fun p =>
      draw_goal_row p.2 (HEADER_HEIGHT + pyTrunc ((p.1 : ℚ) * goal_spacing)) width)
    let bar_positions := rows.map Prod.fst
    let cmds := (rows.map Prod.snd).flatten
    match bar_positions.head?, bar_positions.getLast? with
    | some top, some bottom =>
        .ok (some ⟨top, bottom + BAR_HEIGHT, X_MARGIN, width - X_MARGIN⟩, cmds)
    | _, _ => .ok (none, cmds)

/-- Embeds `DashboardRenderer._draw_day_ticks` (renderer.py lines 359-375); the
`width` parameter is accepted but unused, as in the source. -/
def draw_day_ticks (goals_area : GoalsArea) (_width : ℤ) : List DrawCmd :=
  (List.range 15).map (fun (day : ℕ) =>
    let bar_width := goals_area.right - goals_area.left
    let tick_x := goals_area.left + pyTrunc (((day : ℚ) / 14) * (bar_width : ℚ))
    let tick_x := max goals_area.left (min tick_x goals_area.right)
    let tick_y_top := goals_area.bottom + 3
    let tick_y_bottom := goals_area.bottom + 8
    let is_weekend := day = 0 ∨ day = 6 ∨ day = 7 ∨ day = 8 ∨ day = 13 ∨ day = 14
    let tick_bottom := tick_y_bottom + (if is_weekend then 2 else 0)
    DrawCmd.line tick_x tick_y_top tick_x tick_bottom .black 2)

/-- Embeds `DashboardRenderer._draw_midweek_line` (renderer.py lines 314-327). -/
def draw_midweek_line (width height : ℤ) : List DrawCmd :=
  let bar_width := width - X_MARGIN * 2
  let midpoint_x := X_MARGIN + pyTrunc ((7 / 14 : ℚ) * (bar_width : ℚ))
  let weekend_width := pyTrunc ((2 / 14 : ℚ) * (bar_width : ℚ))
  [DrawCmd.line midpoint_x 52 midpoint_x height .lightGray weekend_width]

/-- The dash loop of `_draw_time_indicator` (renderer.py lines 345-357),
written with fuel; `(marker_bottom - top).toNat + 1` iterations always
suffice since every iteration either finishes or advances `current_y` by at
least 1. -/
def dashLoop (marker_x marker_bottom : ℤ) : ℕ → ℤ → Bool → List DrawCmd
  | 0, _, _ => []
  | fuel + 1, current_y, drawing =>
      if current_y < marker_bottom then
        if drawing then
          let end_y := min (current_y + 4) marker_bottom
          DrawCmd.line marker_x current_y marker_x end_y .black 2 ::
            dashLoop marker_x marker_bottom fuel end_y false
        else
          dashLoop marker_x marker_bottom fuel (current_y + 3) true
      else []

/-- Embeds `DashboardRenderer._draw_time_indicator` (renderer.py lines 329-357). -/
def draw_time_indicator (time_fraction : ℚ) (width height : ℤ) : List DrawCmd :=
  let bar_width := width - X_MARGIN * 2
  let marker_x := X_MARGIN + pyTrunc (time_fraction * (bar_width : ℚ))
  let marker_x := max (X_MARGIN + 2) (min marker_x (width - X_MARGIN - 2))
  dashLoop marker_x height ((height - 52).toNat + 1) 52 true

/-- Embeds `DashboardRenderer._draw_header` (renderer.py lines 142-184); formatted
text is abstracted (no claim inspects it).  Weather is optional and its
rendering never raises into the caller (the source wraps it in try/except). -/
def draw_header (period_start period_end : PyDatetime) (width : ℤ)
    (now : PyDatetime) (weather : Option String) : List DrawCmd :=
  let days_into_period :=
    (now.secondsSinceAnchor - period_start.secondsSinceAnchor) / 86400
  let day_of_period := min days_into_period 13
  let weatherCmds :=
    match weather with
    | some w => [DrawCmd.text (width - X_MARGIN) 10 w Color.black]
    | none => []
  [DrawCmd.text X_MARGIN 10
      ("period " ++ toString period_start.secondsSinceAnchor ++ " to "
        ++ toString period_end.secondsSinceAnchor) Color.black,
    DrawCmd.text X_MARGIN 32
      ("Day " ++ toString (day_of_period + 1) ++ " of 14") Color.black]
  ++ weatherCmds
  ++ [DrawCmd.text (width - X_MARGIN) 32
        ("Updated " ++ toString now.secondsSinceAnchor) Color.black,
      DrawCmd.line X_MARGIN 52 (width - X_MARGIN) 52 Color.black 2]

/-- The image produced by one `render` call: the canvas dimensions of
`Image.new` and the recorded drawing calls of each stage, plus the
mandatory monochrome conversion and the timestamped filename. -/
structure RenderOutput where
  width : ℤ
  height : ℤ
  background : List DrawCmd
  header : List DrawCmd
  goalCmds : List DrawCmd
  timeIndicator : List DrawCmd
  dayTicks : List DrawCmd
  monochrome : Bool
  filename : String
  deriving DecidableEq

/-- Embeds `DashboardRenderer.render` (renderer.py lines 80-140), with the ambient
`datetime.now()` of lines 110 and 133 made an explicit argument.  Stages in
source order: midweek line, header, goals, time indicator, day ticks (only
when `_draw_goals` returned a goals area), monochrome conversion, save. -/
def render (goals : List Goal) (period_start period_end : PyDatetime)
    (width height : ℤ) (weather : Option String) (now : PyDatetime) :
    Except PyError RenderOutput := do
  let days_into_period :=
    (now.secondsSinceAnchor - period_start.secondsSinceAnchor) / 86400
  let time_fraction :=
    ((days_into_period : ℚ) + ProgressCalculator.day_fraction now) / 14
  let background := draw_midweek_line width height
  let header := draw_header period_start period_end width now weather
  let goalsResult ← draw_goals goals width height time_fraction
  let timeIndicator := draw_time_indicator time_fraction width height
  let dayTicks :=
    match goalsResult.1 with
    | some area => draw_day_ticks area width
    | none => []
  .ok { width := width
        height := height
        background := background
        header := header
        goalCmds := goalsResult.2
        timeIndicator := timeIndicator
        dayTicks := dayTicks
        monochrome := true
        filename := "dashboard-" ++ toString now.secondsSinceAnchor }

end DashboardRenderer

/-! ## Helper lemmas -/

/-- For non-negative arguments Python `int()` agrees with the floor. -/
theorem pyTrunc_eq_floor {q : ℚ} (h : 0 ≤ q) : pyTrunc q = ⌊q⌋ := by
  unfold pyTrunc
  rw [Rat.floor_def]
  exact Int.tdiv_eq_ediv (Rat.num_nonneg.mpr h) (by positivity)

theorem pyTrunc_nonneg {q : ℚ} (h : 0 ≤ q) : 0 ≤ pyTrunc q :=
  Int.tdiv_nonneg (Rat.num_nonneg.mpr h) (by positivity)

/-- Applying `int()` to a value that is already an integer returns that integer. -/
theorem pyTrunc_intCast (n : ℤ) : pyTrunc (n : ℚ) = n := by
  unfold pyTrunc
  rw [Rat.num_intCast, Rat.den_intCast]
  simp

theorem pyTrunc_le_of_nonneg_le {q : ℚ} {n : ℤ} (h0 : 0 ≤ q) (h : q ≤ (n : ℚ)) :
    pyTrunc q ≤ n := by
  rw [pyTrunc_eq_floor h0]
  calc ⌊q⌋ ≤ ⌊(n : ℚ)⌋ := Int.floor_le_floor h
  _ = n := Int.floor_intCast n

theorem length_filter_add_length_filter_not {α : Type} (l : List α) (p : α → Bool) :
    (l.filter p).length + (l.filter (fun a => !(p a))).length = l.length := by
  induction l with
  | nil => rfl
  | cons x xs ih => by_cases h : p x <;> simp [List.filter, h, ih] <;> omega

theorem length_filterMap_ite {α β : Type} (l : List α) (p : α → Prop)
    [DecidablePred p] (f : α → β) :
    (l.filterMap (fun a => if p a then some (f a) else none)).length
      = (l.filter (fun a => decide (p a))).length := by
  induction l with
  | nil => rfl
  | cons x xs ih => by_cases h : p x <;> simp [List.filterMap_cons, h, ih]

theorem mem_ite_nil {α : Type} {c : Prop} [Decidable c] {l : List α} {a : α}
    (h : a ∈ if c then l else []) : a ∈ l := by
  split_ifs at h
  · exact h
  · exact absurd h (List.not_mem_nil a)

/-- Every divider x position lies inside `[x, x + width]`. -/
theorem segment_xs_bounds {x width : ℤ} {t : ℕ} (hw : 0 ≤ width) :
    ∀ sx ∈ DashboardRenderer.segment_xs x width t, x ≤ sx ∧ sx ≤ x + width := by
  intro sx hsx
  unfold DashboardRenderer.segment_xs at hsx
  obtain ⟨i, hi, rfl⟩ := List.mem_map.mp hsx
  have hi' := List.mem_range'_1.mp hi
  rcases Nat.eq_zero_or_pos t with h0 | hpos
  · omega
  have ht0 : ((t : ℚ)) ≠ 0 := by
    exact_mod_cast Nat.pos_iff_ne_zero.mp hpos
  have hq : (0 : ℚ) ≤ (i : ℚ) * ((width : ℚ) / (t : ℚ)) := by positivity
  have hit : (i : ℚ) ≤ (t : ℚ) := by exact_mod_cast (by omega : i ≤ t)
  have harg : (i : ℚ) * ((width : ℚ) / (t : ℚ)) ≤ ((width : ℤ) : ℚ) := by
    have h1 : (i : ℚ) * ((width : ℚ) / (t : ℚ))
        ≤ (t : ℚ) * ((width : ℚ) / (t : ℚ)) :=
      mul_le_mul_of_nonneg_right hit (by positivity)
    have h2 : (t : ℚ) * ((width : ℚ) / (t : ℚ)) = ((width : ℤ) : ℚ) := by
      rw [mul_comm, div_mul_cancel₀ _ ht0]
    rwa [h2] at h1
  have hlo := pyTrunc_nonneg hq
  have hhi := pyTrunc_le_of_nonneg_le hq harg
  omega

/-- Anatomy of `_draw_progress_bar`'s output: every drawing call is the
filled rectangle, the outline, or a divider line at one of the segment
positions. -/
theorem mem_draw_progress_bar {x y width height current : ℤ} {target : ℚ}
    {cmd : DrawCmd}
    (hcmd : cmd ∈ DashboardRenderer.draw_progress_bar x y width height current target) :
    cmd = DrawCmd.fillRect x y
        (x + DashboardRenderer.filled_width current target width) (y + height) .black
  ∨ cmd = DrawCmd.outlineRect x y (x + width) (y + height) .black 1
  ∨ ∃ sx ∈ DashboardRenderer.segment_xs x width ((pyTrunc target).toNat),
      ∃ c k, cmd = DrawCmd.line sx y sx (y + height) c k := by
  unfold DashboardRenderer.draw_progress_bar at hcmd
  by_cases h0 : target ≤ 0
  · rw [if_pos h0] at hcmd
    exact absurd hcmd (List.not_mem_nil cmd)
  rw [if_neg h0] at hcmd
  simp only [List.append_assoc, List.mem_append, List.mem_singleton] at hcmd
  rcases hcmd with hfill | houtline | hblack
  · have hfill' := mem_ite_nil hfill
    rcases List.mem_cons.mp hfill' with hc | hrest
    · exact Or.inl hc
    · have hwhite := mem_ite_nil hrest
      obtain ⟨sx, hmem, hfx⟩ := List.mem_filterMap.mp hwhite
      split_ifs at hfx
      exact Or.inr (Or.inr ⟨sx, hmem, _, _, (Option.some.inj hfx).symm⟩)
  · exact Or.inr (Or.inl houtline)
  · have hblack' := mem_ite_nil hblack
    obtain ⟨sx, hmem, hfx⟩ := List.mem_filterMap.mp hblack'
    split_ifs at hfx
    exact Or.inr (Or.inr ⟨sx, hmem, _, _, (Option.some.inj hfx).symm⟩)

theorem countDividers_append (a b : List DrawCmd) :
    DashboardRenderer.countDividers (a ++ b)
      = DashboardRenderer.countDividers a + DashboardRenderer.countDividers b := by
  unfold DashboardRenderer.countDividers
  rw [List.filter_append, List.length_append]

theorem countDividers_cons_fillRect (x1 y1 x2 y2 : ℤ) (c : Color)
    (rest : List DrawCmd) :
    DashboardRenderer.countDividers (DrawCmd.fillRect x1 y1 x2 y2 c :: rest)
      = DashboardRenderer.countDividers rest := by
  simp [DashboardRenderer.countDividers, List.filter_cons,
    DashboardRenderer.isDividerLine]

theorem countDividers_outline (x1 y1 x2 y2 k : ℤ) (c : Color) :
    DashboardRenderer.countDividers [DrawCmd.outlineRect x1 y1 x2 y2 c k] = 0 := by
  simp [DashboardRenderer.countDividers, List.filter_cons,
    DashboardRenderer.isDividerLine]

theorem countDividers_nil : DashboardRenderer.countDividers [] = 0 := rfl

/-- Counting the dividers produced by one of `_draw_progress_bar`'s two
divider loops: every emitted command is a `line`, so the count is the number
of loop indices passing the loop's condition. -/
theorem countDividers_loop (l : List ℤ) (p : ℤ → Prop) [DecidablePred p]
    (y1 y2 k : ℤ) (c : Color) :
    DashboardRenderer.countDividers
        (l.filterMap (fun sx =>
          if p sx then some (DrawCmd.line sx y1 sx y2 c k) else none))
      = (l.filter (fun sx => decide (p sx))).length := by
  have hall : ∀ cmd ∈ l.filterMap (fun sx =>
      if p sx then some (DrawCmd.line sx y1 sx y2 c k) else none),
      DashboardRenderer.isDividerLine cmd = true := by
    intro cmd hcmd
    obtain ⟨sx, _, hfx⟩ := List.mem_filterMap.mp hcmd
    split_ifs at hfx
    rw [← Option.some.inj hfx]
    rfl
  unfold DashboardRenderer.countDividers
  rw [List.filter_eq_self.mpr hall, length_filterMap_ite]

theorem segment_xs_length (x width : ℤ) (t : ℕ) :
    (DashboardRenderer.segment_xs x width t).length = t - 1 := by
  unfold DashboardRenderer.segment_xs
  rw [List.length_map, List.length_range']

/-! ## Theorems for the claims -/

/-- C1: the claim says the Progress Engine's `calculate_progress` completes
without raising for every valid goal list.  In fact it raises
`AttributeError` on every non-empty list: the access
`goal.config.hours_offset` at history.py line 80 fails because the
`GoalConfig` dataclass declares no such field and no code assigns one. -/
theorem calculate_progress_raises (goal : Goal) (count : ℤ)
    (rest : List (Goal × ℤ)) (now : PyDatetime) :
    ProgressCalculator.calculate_progress now ((goal, count) :: rest)
      = .error .attributeError := rfl

/-- C3: for every period target `t > 0` and hours offset, the value computed
by `_calculate_target_by_now` equals `t * (daysElapsed / 14)` where
`daysElapsed` is the offset-adjusted elapsed-days value; that curve is
monotonically non-decreasing in `daysElapsed`, equals 0 at `daysElapsed = 0`
and equals `t` at `daysElapsed = 14`. -/
theorem target_by_now_spec (t : ℚ) (ht : 0 < t) :
    (∀ (dop : ℤ) (ho : ℚ) (now : PyDatetime),
        ProgressCalculator.calculate_target_by_now t dop ho now
          = t * (ProgressCalculator.effective_days_elapsed
                  ((dop : ℚ) + ProgressCalculator.day_fraction now) ho / 14))
  ∧ (∀ d₁ d₂ : ℚ, d₁ ≤ d₂ →
      ProgressCalculator.expected_by_now t d₁ ≤ ProgressCalculator.expected_by_now t d₂)
  ∧ ProgressCalculator.expected_by_now t 0 = 0
  ∧ ProgressCalculator.expected_by_now t 14 = t := by
  refine ⟨fun dop ho now => rfl, fun d₁ d₂ h => ?_, ?_, ?_⟩
  · unfold ProgressCalculator.expected_by_now ProgressCalculator.PERIOD_DAYS
    gcongr
  · simp [ProgressCalculator.expected_by_now]
  · unfold ProgressCalculator.expected_by_now ProgressCalculator.PERIOD_DAYS
    norm_num

/-- C3 witness: at target 4 the curve ends the 14-day period at exactly 4. -/
theorem target_by_now_spec_witness :
    ProgressCalculator.expected_by_now 4 14 = 4 :=
  (target_by_now_spec 4 (by norm_num)).2.2.2

/-- C5: for non-negative `current` the binary classification returns
`"behind"` iff `current < target_by_now`, returns `"on_track"` otherwise,
and in particular returns `"on_track"` on exact equality. -/
theorem calculate_status_spec (current : ℤ) (target_by_now : ℚ)
    (_hc : 0 ≤ current) :
    (ProgressCalculator.calculate_status current target_by_now = "behind"
      ↔ (current : ℚ) < target_by_now)
  ∧ (¬ (current : ℚ) < target_by_now →
      ProgressCalculator.calculate_status current target_by_now = "on_track")
  ∧ ((current : ℚ) = target_by_now →
      ProgressCalculator.calculate_status current target_by_now = "on_track") := by
  unfold ProgressCalculator.calculate_status
  refine ⟨⟨fun hs => ?_, fun hlt => if_pos hlt⟩, fun hn => if_neg hn, fun he => ?_⟩
  · by_contra hlt
    rw [if_neg hlt] at hs
    exact absurd hs (by decide)
  · rw [if_neg (by rw [he]; exact lt_irrefl _)]

/-- C5 witness: the spec scenario `current = 2`, `expectedByNow = 2.0` is the
boundary case and classifies as on track. -/
theorem calculate_status_spec_witness :
    ProgressCalculator.calculate_status 2 2 = "on_track" :=
  (calculate_status_spec 2 2 (by norm_num)).2.2 (by norm_num)

/-- C7: the `days_left` value `(PERIOD_DAYS - 1) - day_of_period` is always a
non-negative integer and at most `PERIOD_DAYS - 1 = 13`, for every instant
including instants before the period anchor (Python `%` with positive
modulus keeps `day_of_period` in `[0, 13]`). -/
theorem days_left_bounds (now : PyDatetime) :
    0 ≤ ProgressCalculator.days_left now
  ∧ ProgressCalculator.days_left now ≤ ProgressCalculator.PERIOD_DAYS - 1 := by
  unfold ProgressCalculator.days_left ProgressCalculator.get_day_of_period
    ProgressCalculator.PERIOD_DAYS
  have h1 := Int.emod_lt_of_pos (ProgressCalculator.days_since_anchor now)
    (by norm_num : (0 : ℤ) < 14)
  have h2 := Int.emod_nonneg (ProgressCalculator.days_since_anchor now)
    (by norm_num : (14 : ℤ) ≠ 0)
  omega

/-- C9 counterexample: the Progress Engine is not a function of its explicit
arguments alone.  `_calculate_target_by_now` takes `(period_target,
day_of_period, hours_offset)` and reads `datetime.now()` internally
(history.py line 165): with all three explicit arguments fixed at
`(4, 0, 0)`, invoking it at midnight and at noon of the same day yields
different outputs. -/
theorem target_by_now_reads_clock :
    ProgressCalculator.calculate_target_by_now 4 0 0 ⟨0⟩
      ≠ ProgressCalculator.calculate_target_by_now 4 0 0 ⟨43200⟩ := by
  norm_num [ProgressCalculator.calculate_target_by_now,
    ProgressCalculator.effective_days_elapsed, ProgressCalculator.expected_by_now,
    ProgressCalculator.day_fraction, ProgressCalculator.PERIOD_DAYS,
    PyDatetime.seconds_into_day, max_def]

/-- C9 amended: once the ambient `datetime.now()` reading is counted among
the inputs the engines are deterministic — the expected-by-now computation
depends on the ambient instant only through its seconds-into-the-day, so any
two invocations whose explicit arguments agree and whose wall-clock readings
show the same time of day return equal values. -/
theorem target_by_now_deterministic (period_target : ℚ) (day_of_period : ℤ)
    (hours_offset : ℚ) (n₁ n₂ : PyDatetime)
    (h : n₁.seconds_into_day = n₂.seconds_into_day) :
    ProgressCalculator.calculate_target_by_now period_target day_of_period hours_offset n₁
      = ProgressCalculator.calculate_target_by_now period_target day_of_period hours_offset n₂ := by
  unfold ProgressCalculator.calculate_target_by_now ProgressCalculator.day_fraction
  rw [h]

/-- C9 amended witness: noon today and noon three days later give the same
expected-by-now for equal explicit arguments. -/
theorem target_by_now_deterministic_witness :
    ProgressCalculator.calculate_target_by_now 4 0 0 ⟨43200⟩
      = ProgressCalculator.calculate_target_by_now 4 0 0 ⟨302400⟩ :=
  target_by_now_deterministic 4 0 0 ⟨43200⟩ ⟨302400⟩ (by decide)

/-- C6: for every `currentCount ≥ 0` and bar target `t > 0` the fill
fraction `min(current / target, 1.0)` lies in `[0, 1]` even when the count
exceeds the target, the filled width `int(fillFraction * width)` never
exceeds the bar width, an over-target count yields fill fraction exactly 1
and a full-width fill, and every drawing call of `_draw_progress_bar` stays
within the bar's horizontal bounds `[x, x + width]`. -/
theorem fill_fraction_clamped (x y height current width : ℤ) (target : ℚ)
    (hc : 0 ≤ current) (ht : 0 < target) (hw : 0 ≤ width) :
    0 ≤ DashboardRenderer.fill_fraction current target
  ∧ DashboardRenderer.fill_fraction current target ≤ 1
  ∧ 0 ≤ DashboardRenderer.filled_width current target width
  ∧ DashboardRenderer.filled_width current target width ≤ width
  ∧ (target < (current : ℚ) →
      DashboardRenderer.fill_fraction current target = 1
    ∧ DashboardRenderer.filled_width current target width = width)
  ∧ ∀ cmd ∈ DashboardRenderer.draw_progress_bar x y width height current target,
      x ≤ cmd.xmin ∧ cmd.xmax ≤ x + width := by
  have hff0 : 0 ≤ DashboardRenderer.fill_fraction current target :=
    le_min (by positivity) zero_le_one
  have hff1 : DashboardRenderer.fill_fraction current target ≤ 1 :=
    min_le_right _ _
  have hprod0 : (0 : ℚ) ≤ DashboardRenderer.fill_fraction current target * (width : ℚ) :=
    mul_nonneg hff0 (by exact_mod_cast hw)
  have hfw0 : 0 ≤ DashboardRenderer.filled_width current target width :=
    pyTrunc_nonneg hprod0
  have hfwW : DashboardRenderer.filled_width current target width ≤ width := by
    apply pyTrunc_le_of_nonneg_le hprod0
    calc DashboardRenderer.fill_fraction current target * (width : ℚ)
        ≤ 1 * (width : ℚ) :=
          mul_le_mul_of_nonneg_right hff1 (by exact_mod_cast hw)
    _ = ((width : ℤ) : ℚ) := one_mul _
  refine ⟨hff0, hff1, hfw0, hfwW, fun hover => ?_, fun cmd hcmd => ?_⟩
  · have hone : DashboardRenderer.fill_fraction current target = 1 := by
      unfold DashboardRenderer.fill_fraction
      exact min_eq_right ((one_le_div ht).mpr hover.le)
    refine ⟨hone, ?_⟩
    unfold DashboardRenderer.filled_width
    rw [hone, one_mul, pyTrunc_intCast]
  · rcases mem_draw_progress_bar hcmd with hfill | houtline | ⟨sx, hmem, c, k, hline⟩
    · subst hfill
      simp only [DrawCmd.xmin, DrawCmd.xmax]
      omega
    · subst houtline
      simp only [DrawCmd.xmin, DrawCmd.xmax]
      omega
    · subst hline
      have hb := segment_xs_bounds hw sx hmem
      simp only [DrawCmd.xmin, DrawCmd.xmax, min_self, max_self]
      omega

/-- C6 witness: the spec scenario target = 4, count = 5 (over-target) gives
fill fraction 1 and a full-width 760-pixel fill. -/
theorem fill_fraction_clamped_witness :
    DashboardRenderer.fill_fraction 5 4 = 1
  ∧ DashboardRenderer.filled_width 5 4 760 = 760 :=
  (fill_fraction_clamped 20 100 20 5 760 4 (by norm_num) (by norm_num)
    (by norm_num)).2.2.2.2.1 (by norm_num)

/-- For a positive whole-number target the bar draws exactly
`int(target) - 1` segment dividers: the white loop (filled portion) and the
black loop (unfilled portion) have complementary conditions over the same
divider positions, so each of the `int(target) - 1` internal boundaries is
drawn exactly once. -/
theorem divider_count_core (x y height current width : ℤ) (target : ℚ)
    (hw : 0 ≤ width) (ht : 0 < target)
    (hint : target = ((pyTrunc target : ℤ) : ℚ)) :
    DashboardRenderer.countDividers
        (DashboardRenderer.draw_progress_bar x y width height current target)
      = (pyTrunc target).toNat - 1 := by
  have hnle : ¬ target ≤ 0 := not_le.mpr ht
  unfold DashboardRenderer.draw_progress_bar
  rw [if_neg hnle]
  simp only [if_pos hint, countDividers_append, countDividers_outline,
    countDividers_nil]
  by_cases hfw : 0 < DashboardRenderer.filled_width current target width
  · rw [if_pos hfw]
    rw [countDividers_cons_fillRect]
    rw [countDividers_loop, countDividers_loop]
    have hneg : (DashboardRenderer.segment_xs x width ((pyTrunc target).toNat)).filter
          (fun sx => decide (x + DashboardRenderer.filled_width current target width ≤ sx))
        = (DashboardRenderer.segment_xs x width ((pyTrunc target).toNat)).filter
          (fun sx =>
            !(decide (sx < x + DashboardRenderer.filled_width current target width))) := by
      apply List.filter_congr
      intro sx _
      by_cases h : sx < x + DashboardRenderer.filled_width current target width
      · have h2 : ¬ (x + DashboardRenderer.filled_width current target width ≤ sx) := by
          omega
        simp [h, h2]
      · have h2 : x + DashboardRenderer.filled_width current target width ≤ sx := by
          omega
        simp [h, h2]
    rw [hneg]
    have hsum := length_filter_add_length_filter_not
      (DashboardRenderer.segment_xs x width ((pyTrunc target).toNat))
      (fun sx => decide (sx < x + DashboardRenderer.filled_width current target width))
    rw [segment_xs_length] at hsum
    omega
  · rw [if_neg hfw]
    rw [countDividers_nil, countDividers_loop]
    have hall : ∀ sx ∈ DashboardRenderer.segment_xs x width ((pyTrunc target).toNat),
        decide (x + DashboardRenderer.filled_width current target width ≤ sx) = true := by
      intro sx hmem
      have hb := (segment_xs_bounds hw sx hmem).1
      have hfw0 : DashboardRenderer.filled_width current target width ≤ 0 :=
        not_lt.mp hfw
      simp only [decide_eq_true_eq]
      omega
    rw [List.filter_eq_self.mpr hall, segment_xs_length]
    omega

/-- For a positive fractional target no divider is drawn. -/
theorem divider_count_frac (x y height current width : ℤ) (target : ℚ)
    (ht : 0 < target) (hnint : target ≠ ((pyTrunc target : ℤ) : ℚ)) :
    DashboardRenderer.countDividers
        (DashboardRenderer.draw_progress_bar x y width height current target)
      = 0 := by
  have hnle : ¬ target ≤ 0 := not_le.mpr ht
  unfold DashboardRenderer.draw_progress_bar
  rw [if_neg hnle]
  simp only [if_neg hnint, countDividers_append, countDividers_outline,
    countDividers_nil]
  by_cases hfw : 0 < DashboardRenderer.filled_width current target width
  · rw [if_pos hfw]
    rw [countDividers_cons_fillRect, countDividers_nil]
  · rw [if_neg hfw]
    rw [countDividers_nil]

/-- C2 (amended): for a whole-number bar target `t` the divider loops of
`_draw_progress_bar` draw exactly `t - 1` dividers — one per internal
boundary of the `t` segments, each drawn exactly once, background-colored on
the filled portion and foreground-colored on the unfilled portion — and for
a fractional target no divider is drawn. -/
theorem divider_count (x y height current width : ℤ) (target : ℚ)
    (hw : 0 ≤ width) (ht : 0 < target) :
    (target = ((pyTrunc target : ℤ) : ℚ) →
      DashboardRenderer.countDividers
          (DashboardRenderer.draw_progress_bar x y width height current target)
        = (pyTrunc target).toNat - 1)
  ∧ (target ≠ ((pyTrunc target : ℤ) : ℚ) →
      DashboardRenderer.countDividers
          (DashboardRenderer.draw_progress_bar x y width height current target)
        = 0) :=
  ⟨fun hint => divider_count_core x y height current width target hw ht hint,
   fun hnint => divider_count_frac x y height current width target ht hnint⟩

/-- C2 counterexample: the claim as stated says a whole-number target `t`
yields exactly `t` dividers.  At target 2 (bar x = 20, y = 100, width = 760,
height = 20, count 0) the code draws 1 divider — the single internal
boundary of the 2 segments — not 2. -/
theorem divider_count_cex :
    DashboardRenderer.countDividers
        (DashboardRenderer.draw_progress_bar 20 100 760 20 0 2) = 1
  ∧ ¬ DashboardRenderer.countDividers
        (DashboardRenderer.draw_progress_bar 20 100 760 20 0 2) = 2 := by
  have hp2 : pyTrunc 2 = 2 := by
    have h : ((2 : ℤ) : ℚ) = 2 := by norm_num
    rw [← h, pyTrunc_intCast]
  have h := divider_count_core 20 100 20 0 760 2 (by norm_num) (by norm_num)
    (by rw [hp2]; norm_num)
  rw [h, hp2]
  omega

/-- C2 witness: at whole-number target 4 on a 760-pixel bar with count 0 the
divider count is `int(4) - 1`. -/
theorem divider_count_witness :
    DashboardRenderer.countDividers
        (DashboardRenderer.draw_progress_bar 20 100 760 20 0 4)
      = (pyTrunc 4).toNat - 1 :=
  (divider_count 20 100 20 0 760 4 (by norm_num) (by norm_num)).1
    (by
      have h : ((4 : ℤ) : ℚ) = 4 := by norm_num
      rw [← h, pyTrunc_intCast])

/-- C4: anchored period boundaries are idempotent.  For every instant lying
within the period `[periodStart, periodEnd)` computed at some instant `now`,
recomputing `_get_current_period` at that instant returns exactly the same
`(periodStart, periodEnd)` pair — boundaries never drift with invocation
time. -/
theorem get_current_period_idempotent (now now' : PyDatetime)
    (h1 : (ProgressCalculator.get_current_period now).1 ≤ now'.secondsSinceAnchor)
    (h2 : now'.secondsSinceAnchor < (ProgressCalculator.get_current_period now).2) :
    ProgressCalculator.get_current_period now'
      = ProgressCalculator.get_current_period now := by
  unfold ProgressCalculator.get_current_period ProgressCalculator.days_since_anchor
    ProgressCalculator.PERIOD_DAYS at h1 h2 ⊢
  simp only at h1 h2 ⊢
  have key : now'.secondsSinceAnchor / 86400 / 14
      = now.secondsSinceAnchor / 86400 / 14 := by omega
  rw [key]

/-- C4 witness: 2020-01-16 about 17:46 lies in the period opened at the
anchor, and recomputing the boundaries there returns that same period. -/
theorem get_current_period_idempotent_witness :
    ProgressCalculator.get_current_period ⟨1100000⟩
      = ProgressCalculator.get_current_period ⟨1000000⟩ :=
  get_current_period_idempotent ⟨1000000⟩ ⟨1100000⟩ (by decide) (by decide)

/-- C8: rendering an empty goal list raises no exception and produces an
image of exactly the configured canvas width and height, with no goal-row
drawing calls and no day ticks — `_draw_goals` returns before the
`available_height / num_goals` division, so rendering never fails due to
goal count. -/
theorem render_empty_goals (period_start period_end : PyDatetime)
    (width height : ℤ) (weather : Option String) (now : PyDatetime) :
    ∃ out : DashboardRenderer.RenderOutput,
      DashboardRenderer.render [] period_start period_end width height weather now
        = .ok out
      ∧ out.width = width ∧ out.height = height
      ∧ out.goalCmds = [] ∧ out.dayTicks = [] := by
  refine ⟨_, rfl, rfl, rfl, rfl, rfl⟩

/-- C10: for every bar target `t ≤ 0` the progress-bar routine returns
immediately (renderer.py lines 274-275): it performs no drawing at all, so
the division `current / target` and every drawing call are reachable only
under `target > 0`. -/
theorem draw_progress_bar_nonpos_target (x y width height current : ℤ)
    (target : ℚ) (ht : target ≤ 0) :
    DashboardRenderer.draw_progress_bar x y width height current target = [] := by
  unfold DashboardRenderer.draw_progress_bar
  rw [if_pos ht]

/-- C10 witness: a zero target draws nothing. -/
theorem draw_progress_bar_nonpos_target_witness :
    DashboardRenderer.draw_progress_bar 20 100 760 20 5 0 = [] :=
  draw_progress_bar_nonpos_target 20 100 760 20 5 0 (by norm_num)

end TrmnlDash
